import Mathlib

/-!
Verified shallow embedding of the InterviewPilot RAG / evaluation core.

Each definition below is translated from the repository source:
  - src/agent/evaluator.py  (ResponseScore, SessionMetrics, ResponseEvaluator)
  - src/rag/chunker.py      (SemanticChunker)
  - src/rag/retriever.py    (ContextRetriever)
  - src/rag/loader.py       (DocumentLoader)

Modelling conventions:
  - Python strings are Lean `String`s and all operations on them are defined
    here on `List Char` (`String.data`) so that they compute by kernel
    reduction; each helper mirrors the Python string method it names.
  - Python floats are modelled as `ℚ` (exact arithmetic); `round(x, 1)` is
    modelled as round-half-to-even at one decimal, Python's rounding mode.
  - `datetime` values are modelled as rational timestamps (seconds); only
    their difference is ever used by the code under verification.
  - Fallible external calls (the OpenAI chat call, the filesystem, pypdf)
    are modelled as `Except`-valued / function-valued parameters; a Python
    `try/except` boundary becomes a `match` on the `Except`.
  - The external `RecursiveCharacterTextSplitter` (a library the repository
    only configures) and the Chroma vector store are abstracted as function
    parameters (`split_text`, `vectorstore`): the claims quantify over their
    behaviour.
-/

/-! ### Python string-method helpers -/

/-- Drop the characters satisfying `p` from both ends of a character list
(the semantics of Python `str.strip(chars)`). -/
def drop_ends (p : Char → Bool) (l : List Char) : List Char :=
  ((l.dropWhile p).reverse.dropWhile p).reverse

/-- Python `s.strip(chars)` for the character class `p`. -/
def py_strip_chars (p : Char → Bool) (s : String) : String :=
  String.mk (drop_ends p s.data)

/-- Python `s.strip()` (whitespace strip). -/
def py_strip_ws (s : String) : String :=
  py_strip_chars Char.isWhitespace s

/-- Python `s.lower()` (the code only lowercases ASCII text). -/
def str_lower (s : String) : String :=
  String.mk (s.data.map Char.toLower)

/-- Python `s.startswith(pat)`. -/
def starts_with (s pat : String) : Bool :=
  pat.data.isPrefixOf s.data

/-- Python `pat in s` (substring containment). -/
def str_contains (s pat : String) : Bool :=
  s.data.tails.any (fun t => pat.data.isPrefixOf t)

/-- Python `s.split("\n")`: split on every newline, keeping empty pieces. -/
def str_lines (s : String) : List String :=
  (s.data.splitOn '\n').map String.mk

/-- Python `s.split()` (no argument): split on whitespace runs, dropping
empty pieces. -/
def py_split_ws (s : String) : List String :=
  ((s.data.splitOnP Char.isWhitespace).filter (fun w => w ≠ [])).map String.mk

/-- Python `s.split(":", 1)[1]`: everything after the first colon (the code
only calls this after checking `":" in s`). -/
def after_first_colon (s : String) : String :=
  String.mk ((s.data.dropWhile (fun c => c ≠ ':')).tail)

/-- First occurrence of `sep` in `l`: returns the part before it and the part
after it. -/
def split_first (sep : List Char) : List Char → Option (List Char × List Char)
  | [] => if sep.isPrefixOf [] then some ([], []) else none
  | c :: rest =>
    if sep.isPrefixOf (c :: rest) then some ([], (c :: rest).drop sep.length)
    else (split_first sep rest).map (fun p => (c :: p.1, p.2))

/-- Fuelled worker for `str_replace`; the fuel is an upper bound on the
number of replacements (one replacement consumes at least one character of
the remaining text, so `length + 1` fuel is always enough). -/
def replace_aux (pat repl : List Char) : Nat → List Char → List Char
  | 0, l => l
  | Nat.succ fuel, l =>
    match split_first pat l with
    | some (pre, post) => pre ++ repl ++ replace_aux pat repl fuel post
    | none => l

/-- Python `s.replace(pat, repl)`: replace every non-overlapping occurrence,
scanning left to right (the code only uses non-empty patterns). -/
def str_replace (s pat repl : String) : String :=
  String.mk (replace_aux pat.data repl.data (s.data.length + 1) s.data)

/-- Validity of the character list after the first digit of a Python integer
literal: digits, with single underscores allowed only between digits. -/
def digits_tail_ok : List Char → Bool
  | [] => true
  | '_' :: rest => (match rest with | c :: _ => c.isDigit | [] => false) && digits_tail_ok rest
  | c :: rest => c.isDigit && digits_tail_ok rest

/-- A non-empty digit group as accepted by Python `int()`: starts with a
digit, underscores only between digits. -/
def py_digits_ok (l : List Char) : Bool :=
  match l with
  | [] => false
  | c :: _ => c.isDigit && digits_tail_ok l

/-- Numeric value of a digit group (underscores skipped). -/
def digits_value (l : List Char) : Nat :=
  (l.filter (fun c => c ≠ '_')).foldl (fun n c => n * 10 + (c.toNat - '0'.toNat)) 0

/-- Python `int(s)` as a partial function: optional surrounding whitespace,
optional sign, then a digit group; anything else raises `ValueError`,
modelled as `none`. -/
def py_int? (s : String) : Option Int :=
  match (py_strip_ws s).data with
  | [] => none
  | c :: rest =>
    if c = '-' then
      if py_digits_ok rest then some (-(digits_value rest : Int)) else none
    else if c = '+' then
      if py_digits_ok rest then some ((digits_value rest : Int)) else none
    else if py_digits_ok (c :: rest) then some ((digits_value (c :: rest) : Int)) else none

/-- Python `k or d` for an optional integer argument: `None` and `0` are both
falsy and select the default. -/
def py_or_nat (k : Option Nat) (d : Nat) : Nat :=
  match k with
  | some n => if n = 0 then d else n
  | none => d

/-- Python `s or d` for an optional string argument: `None` and `""` are both
falsy and select the default. -/
def py_or_str (s : Option String) (d : String) : String :=
  match s with
  | some t => if t = "" then d else t
  | none => d

/-! ### src/agent/evaluator.py — data model -/

/-- `ResponseScore` (evaluator.py:20-27): score for a single response. -/
structure ResponseScore where
  overall : Int
  strengths : List String := []
  improvements : List String := []
  raw_feedback : String := ""
deriving DecidableEq

/-- `SessionMetrics` (evaluator.py:30-45): aggregated metrics for a session.
Timestamps are rational seconds; `ended_at = none` is an unended session. -/
structure SessionMetrics where
  session_id : String
  interview_type : String
  started_at : ℚ
  ended_at : Option ℚ := none
  total_questions : Nat := 0
  questions_answered : Nat := 0
  average_score : ℚ := 0
  scores : List ResponseScore := []
  total_speaking_time_seconds : ℚ := 0
  average_response_time_seconds : ℚ := 0
deriving DecidableEq

/-- `SessionMetrics.add_score` (evaluator.py:48-55): append the score and
recompute the running average. -/
def add_score (m : SessionMetrics) (score : ResponseScore) : SessionMetrics :=
  let scores := m.scores ++ [score]
  { m with
    scores := scores
    questions_answered := m.questions_answered + 1
    average_score := (scores.map (fun s => (s.overall : ℚ))).sum / (scores.length : ℚ) }

/-- Round half to even to an integer (CPython `round` semantics on exact
values). -/
def round_half_even (q : ℚ) : ℤ :=
  let f := ⌊q⌋
  let r := q - (f : ℚ)
  if r < 1 / 2 then f
  else if 1 / 2 < r then f + 1
  else if f % 2 = 0 then f else f + 1

/-- Python `round(q, 1)`: round half to even at one decimal. -/
def py_round1 (q : ℚ) : ℚ :=
  ((round_half_even (q * 10) : ℤ) : ℚ) / 10

/-- `SessionMetrics._duration_minutes` (evaluator.py:70-75): 0 when the
session has not ended, otherwise the elapsed minutes rounded to one
decimal. -/
def duration_minutes (m : SessionMetrics) : ℚ :=
  match m.ended_at with
  | none => 0
  | some e => py_round1 ((e - m.started_at) / 60)

/-- `SessionMetrics._score_trend` (evaluator.py:77-93). -/
def score_trend (m : SessionMetrics) : String :=
  if m.scores.length < 3 then "not_enough_data"
  else
    let first_half := m.scores.take (m.scores.length / 2)
    let second_half := m.scores.drop (m.scores.length / 2)
    let first_avg := (first_half.map (fun s => (s.overall : ℚ))).sum / (first_half.length : ℚ)
    let second_avg := (second_half.map (fun s => (s.overall : ℚ))).sum / (second_half.length : ℚ)
    let diff := second_avg - first_avg
    if diff > 1 / 2 then "improving"
    else if diff < -(1 / 2) then "declining"
    else "stable"

/-- Order-preserving first-occurrence deduplication (the `seen`-set loop in
`_aggregate_feedback`, evaluator.py:102-108). -/
def dedup_first_aux : List String → List String → List String
  | [], _ => []
  | x :: xs, seen => if x ∈ seen then dedup_first_aux xs seen else x :: dedup_first_aux xs (x :: seen)

/-- First-occurrence deduplication with empty initial `seen` set. -/
def dedup_first (l : List String) : List String :=
  dedup_first_aux l []

/-- `SessionMetrics._aggregate_feedback` (evaluator.py:95-110): the Python
`getattr(score, field_name, [])` field access is modelled by the selector
`sel` (instantiated with `.strengths` / `.improvements`). -/
def aggregate_feedback (m : SessionMetrics) (sel : ResponseScore → List String) : List String :=
  (dedup_first (m.scores.flatMap sel)).take 5

/-- The dictionary returned by `SessionMetrics.to_summary`
(evaluator.py:57-68), as a record. -/
structure SessionSummary where
  session_id : String
  interview_type : String
  duration_minutes : ℚ
  questions_answered : Nat
  average_score : ℚ
  score_trend : String
  top_strengths : List String
  areas_to_improve : List String
deriving DecidableEq

/-- `SessionMetrics.to_summary` (evaluator.py:57-68). -/
def to_summary (m : SessionMetrics) : SessionSummary :=
  { session_id := m.session_id
    interview_type := m.interview_type
    duration_minutes := duration_minutes m
    questions_answered := m.questions_answered
    average_score := py_round1 m.average_score
    score_trend := score_trend m
    top_strengths := aggregate_feedback m ResponseScore.strengths
    areas_to_improve := aggregate_feedback m ResponseScore.improvements }

/-! ### src/agent/evaluator.py — ResponseEvaluator -/

/-- The character class stripped from each word in `_parse_evaluation`:
Python `word.strip("():/")`. -/
def score_punct (c : Char) : Bool :=
  c = '(' || c = ')' || c = ':' || c = '/'

/-- The inner word loop of `_parse_evaluation` (evaluator.py:222-229): the
first whitespace-separated word of the line that, stripped of `()`, `:`
and `/`, parses as an integer in [1, 10]. -/
def score_from_line (line : String) : Option Int :=
  (py_split_ws line).findSome? (fun word =>
    match py_int? (py_strip_chars score_punct word) with
    | some num => if 1 ≤ num && num ≤ 10 then some num else none
    | none => none)

/-- One iteration of the line loop of `_parse_evaluation`
(evaluator.py:217-242), threading `(score, strengths, improvements)`. -/
def parse_step (acc : Int × List String × List String) (line : String) :
    Int × List String × List String :=
  let line_lower := str_lower line
  let score :=
    if str_contains line_lower "score" || str_contains line "/10" then
      (score_from_line line).getD acc.1
    else acc.1
  let strengths :=
    if str_contains line_lower "strength" && str_contains line ":" then
      let content := py_strip_ws (after_first_colon line)
      if content ≠ "" then acc.2.1 ++ [content] else acc.2.1
    else acc.2.1
  let improvements :=
    if (str_contains line_lower "improve" || str_contains line_lower "suggestion" ||
        str_contains line_lower "consider") && str_contains line ":" then
      let content := py_strip_ws (after_first_colon line)
      if content ≠ "" then acc.2.2 ++ [content] else acc.2.2
    else acc.2.2
  (score, strengths, improvements)

/-- `ResponseEvaluator._parse_evaluation` (evaluator.py:209-249): default
score 7, scanned line by line. -/
def parse_evaluation (evaluation : String) : ResponseScore :=
  let r := (str_lines evaluation).foldl parse_step (7, [], [])
  { overall := r.1
    strengths := r.2.1
    improvements := r.2.2
    raw_feedback := evaluation }

/-- `ResponseEvaluator._generate_evaluation` (evaluator.py:189-207): the chat
completion call is the `Except` parameter (`.ok` carries the optional
message content, `.error` any raised exception); `content or ""` maps a
`None` content to `""`, and any exception yields the fallback text. -/
def generate_evaluation (llm : Except String (Option String)) : String :=
  match llm with
  | .ok content => content.getD ""
  | .error _ => "Unable to evaluate response."

/-- The evaluator's in-memory session map `_sessions`, as an association
list keyed by session id. -/
abbrev Sessions := List (String × SessionMetrics)

/-- Python `session_id in self._sessions` / `self._sessions[session_id]`. -/
def sessions_lookup (sessions : Sessions) (session_id : String) : Option SessionMetrics :=
  (sessions.find? (fun p => p.1 == session_id)).map (fun p => p.2)

/-- `ResponseEvaluator.evaluate_response` (evaluator.py:158-183): generate
and parse the evaluation, then record the score only when the session id
is present in the session map. Returns the score and the updated map. -/
def evaluate_response (sessions : Sessions) (session_id question response : String)
    (llm : Except String (Option String)) : ResponseScore × Sessions :=
  let evaluation := generate_evaluation llm
  let score := parse_evaluation evaluation
  let sessions1 :=
    if (sessions_lookup sessions session_id).isSome then
      sessions.map (fun p => if p.1 = session_id then (p.1, add_score p.2 score) else p)
    else sessions
  (score, sessions1)

/-! ### Documents and metadata (langchain `Document` as used by the code) -/

/-- A metadata value: the code stores strings, integers and booleans. -/
inductive MetaValue where
  | s (v : String)
  | i (v : Int)
  | b (v : Bool)
deriving DecidableEq

/-- A metadata dictionary, as an association list in insertion order. -/
abbrev Metadata := List (String × MetaValue)

/-- Python `metadata.get(k)`. -/
def meta_get (m : Metadata) (k : String) : Option MetaValue :=
  (m.find? (fun p => p.1 == k)).map (fun p => p.2)

/-- Python `metadata[k] = v` / one key of `metadata.update({...})`: replace
the value when the key is present, otherwise append the binding. -/
def meta_set (m : Metadata) (k : String) (v : MetaValue) : Metadata :=
  if m.any (fun p => p.1 == k) then
    m.map (fun p => if p.1 == k then (k, v) else p)
  else m ++ [(k, v)]

/-- langchain `Document` as the code uses it: page content plus metadata. -/
structure Document where
  page_content : String
  metadata : Metadata
deriving DecidableEq

/-! ### src/rag/chunker.py — SemanticChunker -/

/-- `SemanticChunker` (chunker.py:41-66): the configured
`RecursiveCharacterTextSplitter` is an external library object, abstracted
as the `split_text` function field. -/
structure SemanticChunker where
  chunk_size : Nat
  chunk_overlap : Nat
  split_text : String → List String

/-- `SemanticChunker._enhance_metadata` (chunker.py:115-139): add the chunk
bookkeeping keys, then classify the content type from the text's prefix. -/
def enhance_metadata (document : Document) (chunk_index total_chunks : Nat) : Document :=
  let md := meta_set (meta_set (meta_set (meta_set (meta_set document.metadata
      "chunk_index" (.i (chunk_index : Int)))
      "total_chunks" (.i (total_chunks : Int)))
      "chunk_size" (.i (document.page_content.length : Int)))
      "is_first_chunk" (.b (chunk_index == 0)))
      "is_last_chunk" (.b (chunk_index == total_chunks - 1))
  let content := document.page_content
  let content_type :=
    if starts_with content "Q:" || starts_with content "**Q:" then "qa_pair"
    else if starts_with content "#" then "heading"
    else "text"
  { document with metadata := meta_set md "content_type" (.s content_type) }

/-- `SemanticChunker._chunk_single_document` (chunker.py:92-113): a document
no longer than `chunk_size` is returned as a single chunk unchanged
(only metadata is enhanced); longer documents are split and each split
piece is whitespace-stripped. -/
def chunk_single_document (c : SemanticChunker) (document : Document) : List Document :=
  let content := document.page_content
  if content.length ≤ c.chunk_size then
    [enhance_metadata document 0 1]
  else
    let chunks := c.split_text content
    chunks.enum.map (fun p =>
      enhance_metadata { page_content := py_strip_ws p.2, metadata := document.metadata }
        p.1 chunks.length)

/-- `SemanticChunker.chunk_documents` (chunker.py:68-90). -/
def chunk_documents (c : SemanticChunker) (documents : List Document) : List Document :=
  documents.flatMap (chunk_single_document c)

/-! ### src/rag/retriever.py — ContextRetriever -/

/-- `ContextRetriever` (retriever.py:21-48): the vector store manager's
`similarity_search_with_score(query, k, filter_dict)` is abstracted as the
`vectorstore` function field, returning (document, reported distance)
pairs. -/
structure ContextRetriever where
  vectorstore : String → Nat → Option String → List (Document × ℚ)
  default_k : Nat := 4
  score_threshold : ℚ := 7 / 10

/-- The `filter_dict = {"category": category} if category else None`
construction (retriever.py:68): the single-field filter is modelled by the
category value itself; an empty string is falsy. -/
def mk_filter (category : Option String) : Option String :=
  match category with
  | some c => if c = "" then none else some c
  | none => none

/-- `ContextRetriever.retrieve` (retriever.py:50-84): over-fetch twice the
requested count, keep results whose reported distance is at most
`1 - score_threshold`, truncate to the requested count. -/
def retrieve (r : ContextRetriever) (query : String) (category : Option String)
    (k : Option Nat) : List Document :=
  let num_results := py_or_nat k r.default_k
  let filter_dict := mk_filter category
  let results := r.vectorstore query (num_results * 2) filter_dict
  ((results.filter (fun p => p.2 ≤ 1 - r.score_threshold)).map Prod.fst).take num_results

/-- Restatement of `retrieve` in the specification's vocabulary (spec §4.4),
for the refinement proof: convert each reported distance `d` to the
similarity `s = 1 - d` and keep the candidates with `s ≥ score_threshold`. -/
def retrieve_spec (r : ContextRetriever) (query : String) (category : Option String)
    (k : Option Nat) : List Document :=
  let num_results := py_or_nat k r.default_k
  let filter_dict := mk_filter category
  let results := r.vectorstore query (num_results * 2) filter_dict
  ((results.filter (fun p => r.score_threshold ≤ 1 - p.2)).map Prod.fst).take num_results

/-- The body of the line loop of `get_sample_questions`
(retriever.py:154-158). -/
def sample_q_line_step (questions : List String) (line : String) : List String :=
  if starts_with line "Q:" || starts_with line "**Q:" then
    let question := py_strip_ws (str_replace (str_replace line "**Q:" "") "Q:" "")
    if question ≠ "" then questions ++ [question] else questions
  else questions

/-- The body of the document loop of `get_sample_questions`
(retriever.py:150-158): only documents tagged `content_type == "qa_pair"`
contribute lines. -/
def sample_q_doc_step (questions : List String) (doc : Document) : List String :=
  if meta_get doc.metadata "content_type" = some (MetaValue.s "qa_pair") then
    (str_lines doc.page_content).foldl sample_q_line_step questions
  else questions

/-- `ContextRetriever.get_sample_questions` (retriever.py:124-160). -/
def get_sample_questions (r : ContextRetriever) (interview_type : String)
    (topic : Option String) (count : Nat) : List String :=
  let query := py_or_str topic (interview_type ++ " interview questions")
  let docs := retrieve r query (some interview_type) (some count)
  let questions := docs.foldl sample_q_doc_step []
  questions.take count

/-- Question extracted from a single line, when the line carries a `Q:`
marker (possibly preceded by markdown emphasis) and the stripped text is
non-empty. -/
def extract_question_of_line (line : String) : Option String :=
  if starts_with line "Q:" || starts_with line "**Q:" then
    let question := py_strip_ws (str_replace (str_replace line "**Q:" "") "Q:" "")
    if question ≠ "" then some question else none
  else none

/-- All questions extracted from one document's content, in line order. -/
def extract_questions (content : String) : List String :=
  (str_lines content).filterMap extract_question_of_line

/-- Restatement of `get_sample_questions` in the specification's vocabulary
(spec §4.4), for the refinement proof: filter the retrieved documents to
`qa_pair` ones, extract the marked questions in encounter order, truncate
to `count`. -/
def get_sample_questions_spec (r : ContextRetriever) (interview_type : String)
    (topic : Option String) (count : Nat) : List String :=
  let query := py_or_str topic (interview_type ++ " interview questions")
  let docs := retrieve r query (some interview_type) (some count)
  ((docs.filter (fun d => meta_get d.metadata "content_type" = some (MetaValue.s "qa_pair"))).flatMap
    (fun d => extract_questions d.page_content)).take count

/-! ### src/rag/loader.py — DocumentLoader -/

/-- A `pathlib.Path`, modelled as its components plus absoluteness. -/
structure PyPath where
  absolute : Bool
  parts : List String
deriving DecidableEq

/-- Python `base / p` for a relative `p` (pathlib returns `p` itself when it
is absolute). -/
def path_join (b p : PyPath) : PyPath :=
  if p.absolute then p else ⟨b.absolute, b.parts ++ p.parts⟩

/-- `DocumentLoader._resolve_path` (loader.py:101-105). -/
def resolve_path (base file_path : PyPath) : PyPath :=
  if file_path.absolute then file_path else path_join base file_path

/-- Python `path.name`: the last component. -/
def path_name (p : PyPath) : String :=
  p.parts.getLast?.getD ""

/-- Python `path.suffix`: the extension from the last dot of the name, empty
when the dot is the first or last character or absent. -/
def path_suffix (p : PyPath) : String :=
  let name := (path_name p).data
  match name.reverse.findIdx? (fun c => c == '.') with
  | some j =>
    let i := name.length - 1 - j
    if 0 < i ∧ i < name.length - 1 then String.mk (name.drop i) else ""
  | none => ""

/-- Python `str(path)`. -/
def path_str (p : PyPath) : String :=
  (if p.absolute then "/" else "") ++ String.intercalate "/" p.parts

/-- Python `path.relative_to(base)`: the remaining components when `base` is
a path prefix, otherwise `ValueError`, modelled as `none`. -/
def relative_to (p base : PyPath) : Option (List String) :=
  if p.absolute == base.absolute && base.parts.isPrefixOf p.parts then
    some (p.parts.drop base.parts.length)
  else none

/-- `DocumentLoader` (loader.py:17-36). -/
structure DocumentLoader where
  base_path : PyPath

/-- `DocumentLoader._extract_category` (loader.py:145-154): first component
of the path relative to the base when there is more than one component;
`"general"` otherwise (including the `ValueError` case). -/
def extract_category (loader : DocumentLoader) (path : PyPath) : String :=
  match relative_to path loader.base_path with
  | some (a :: _ :: _) => a
  | _ => "general"

/-- `DocumentLoader.SUPPORTED_EXTENSIONS` (loader.py:27). -/
def supported_extensions : List String :=
  [".md", ".txt", ".pdf"]

/-- The filesystem and pypdf boundary of the loader: existence checks,
`Path.read_text` (which may raise, e.g. on undecodable bytes), and pypdf
page extraction (which may raise on a malformed PDF; a missing pypdf
install is also folded into the error case since both paths end in an
empty result). -/
structure FS where
  exists_file : PyPath → Bool
  read_text : PyPath → Except String String
  read_pdf : PyPath → Except String (List String)

/-- `DocumentLoader._load_text` (loader.py:107-118). -/
def load_text (fs : FS) (loader : DocumentLoader) (path : PyPath) :
    Except String (List Document) :=
  (fs.read_text path).map (fun content =>
    [{ page_content := content
       metadata := [("source", .s (path_str path)), ("filename", .s (path_name path)),
                    ("category", .s (extract_category loader path)),
                    ("file_type", .s (str_lower (path_suffix path)))] }])

/-- `DocumentLoader._load_pdf` (loader.py:120-143): one document per page
whose extracted text is non-blank, tagged with the 1-based page number. -/
def load_pdf (fs : FS) (loader : DocumentLoader) (path : PyPath) :
    Except String (List Document) :=
  (fs.read_pdf path).map (fun pages =>
    pages.enum.filterMap (fun p =>
      if py_strip_ws p.2 ≠ "" then
        some { page_content := p.2
               metadata := [("source", .s (path_str path)), ("filename", .s (path_name path)),
                            ("category", .s (extract_category loader path)),
                            ("file_type", .s ".pdf"), ("page", .i ((p.1 : Int) + 1))] }
      else none))

/-- `DocumentLoader.load_file` (loader.py:38-67): missing file, unsupported
extension, and any load-time exception all yield the empty list. -/
def load_file (fs : FS) (loader : DocumentLoader) (file_path : PyPath) : List Document :=
  let path := resolve_path loader.base_path file_path
  if !fs.exists_file path then []
  else
    let extension := str_lower (path_suffix path)
    if !(supported_extensions.contains extension) then []
    else
      match (if extension == ".pdf" then load_pdf fs loader path else load_text fs loader path) with
      | .ok docs => docs
      | .error _ => []

/-! ### Concrete fixtures used by example conjuncts and witnesses -/

/-- A response score carrying only an overall value. -/
def mk_score (n : Int) : ResponseScore :=
  { overall := n }

/-- A session whose scores list carries the given overall values. -/
def session_of (l : List Int) : SessionMetrics :=
  { session_id := "s", interview_type := "behavioral", started_at := 0, scores := l.map mk_score }

/-- A freshly started session (the state produced by `start_session`). -/
def session_start : SessionMetrics :=
  { session_id := "s", interview_type := "technical", started_at := 0 }

/-- `session_start` after seven evaluations that each scored 6. -/
def session_seven : SessionMetrics :=
  (List.replicate 7 (mk_score 6)).foldl add_score session_start

/-- Sample documents for the retrieval examples. -/
def doc_a : Document := ⟨"A", []⟩

/-- Second sample document. -/
def doc_b : Document := ⟨"B", []⟩

/-- A retriever whose store reports `doc_a` at distance 0.35 and `doc_b` at
distance 0.2 (the spec's boundary example), with the default threshold. -/
def r_distance_example : ContextRetriever :=
  ⟨fun _ _ _ => [(doc_a, 35 / 100), (doc_b, 2 / 10)], 4, 7 / 10⟩

/-- A retriever whose only candidate is far beyond the threshold. -/
def r_sparse_example : ContextRetriever :=
  ⟨fun _ _ _ => [(doc_a, 9 / 10)], 4, 7 / 10⟩

/-- A retriever whose store always reports eight perfect matches. -/
def r_k0_example : ContextRetriever :=
  ⟨fun _ _ _ => [(doc_a, 0), (doc_a, 0), (doc_a, 0), (doc_a, 0),
                 (doc_a, 0), (doc_a, 0), (doc_a, 0), (doc_a, 0)], 4, 7 / 10⟩

/-- A Q&A-classified document with one marked question line. -/
def qa_doc : Document :=
  ⟨"**Q: Tell me about X\nA: ans", [("content_type", .s "qa_pair")]⟩

/-- A text-classified document whose lines must be ignored. -/
def text_doc : Document :=
  ⟨"Q: not qa", [("content_type", .s "text")]⟩

/-- A retriever whose store reports `qa_doc` and `text_doc` at distance 0. -/
def r_qa_example : ContextRetriever :=
  ⟨fun _ _ _ => [(qa_doc, 0), (text_doc, 0)], 4, 7 / 10⟩

/-- A chunker at the default configuration; the splitter function is never
reached by documents of length at most 512. -/
def chunker512 : SemanticChunker :=
  ⟨512, 50, fun _ => []⟩

/-- A tiny chunker whose splitter emits two pieces, the second with leading
whitespace, to exercise the stripping path. -/
def chunker_small : SemanticChunker :=
  ⟨2, 0, fun s => [s.take 2, " " ++ s.drop 2]⟩

/-- A loader rooted at the relative directory `kb`. -/
def loader_kb : DocumentLoader :=
  ⟨⟨false, ["kb"]⟩⟩

/-- A filesystem on which no file exists. -/
def fs_missing : FS :=
  ⟨fun _ => false, fun _ => .error "io", fun _ => .error "io"⟩

/-- A filesystem on which every file exists but every read raises. -/
def fs_bad_reads : FS :=
  ⟨fun _ => true, fun _ => .error "decode", fun _ => .error "parse"⟩

/-- A concrete session metrics value for the session-map examples. -/
def m_demo : SessionMetrics :=
  session_of [8]

/-- The specification's wording of first-seen-order deduplication, as the
textbook recursion independent of the code's seen-set loop: keep the first
element and deduplicate the tail with every later copy of it removed.
`aggregate_feedback`'s loop is proved equal to this. -/
def erase_dups_spec : List String → List String
  | [] => []
  | x :: xs => x :: erase_dups_spec (xs.filter (fun y => y ≠ x))
termination_by l => l.length
decreasing_by
  simp only [List.length_cons]
  exact Nat.lt_succ_of_le (List.length_filter_le _ xs)

/-- A session whose two scored responses repeat feedback items: the
concatenated strengths are ["b", "a", "b", "c"], so first-seen-order
deduplication must give ["b", "a", "c"] (keep-last order would give
["a", "b", "c"]). -/
def session_feedback : SessionMetrics :=
  { session_id := "s", interview_type := "behavioral", started_at := 0,
    scores := [⟨8, ["b", "a"], ["x"], ""⟩, ⟨6, ["b", "c"], ["x", "y"], ""⟩] }

/-! ### Helper lemmas -/

theorem dropWhile_dropWhile_self (p : Char → Bool) (l : List Char) :
    (l.dropWhile p).dropWhile p = l.dropWhile p := by
  induction l with
  | nil => rfl
  | cons c t ih =>
    cases h : p c <;> simp [List.dropWhile_cons, h, ih]

theorem dropWhile_eq_self_of_prefix (p : Char → Bool) {l m : List Char}
    (hm : m <+: l) (hl : l.dropWhile p = l) : m.dropWhile p = m := by
  cases m with
  | nil => rfl
  | cons a t =>
    obtain ⟨r, hr⟩ := hm
    cases h : p a
    · simp [List.dropWhile_cons, h]
    · exfalso
      rw [← hr, List.cons_append, List.dropWhile_cons, h, if_pos rfl] at hl
      have hle : (List.dropWhile p (t ++ r)).length ≤ (t ++ r).length :=
        ((List.dropWhile_suffix p).sublist).length_le
      have := congrArg List.length hl
      simp only [List.length_cons] at this
      omega

theorem drop_ends_idem (p : Char → Bool) (l : List Char) :
    drop_ends p (drop_ends p l) = drop_ends p l := by
  have hrev : (drop_ends p l).reverse = (l.dropWhile p).reverse.dropWhile p := by
    simp [drop_ends]
  have hpre : drop_ends p l <+: l.dropWhile p := by
    rw [← List.reverse_suffix, hrev]
    exact List.dropWhile_suffix p
  have hA : (drop_ends p l).dropWhile p = drop_ends p l :=
    dropWhile_eq_self_of_prefix p hpre (dropWhile_dropWhile_self p l)
  show (((drop_ends p l).dropWhile p).reverse.dropWhile p).reverse = drop_ends p l
  rw [hA, hrev, dropWhile_dropWhile_self, ← hrev, List.reverse_reverse]

theorem py_strip_ws_idem (s : String) : py_strip_ws (py_strip_ws s) = py_strip_ws s := by
  show String.mk (drop_ends Char.isWhitespace (drop_ends Char.isWhitespace s.data))
      = String.mk (drop_ends Char.isWhitespace s.data)
  rw [drop_ends_idem]

/-! ### C1 / C6 / C10 — evaluator parsing and session bookkeeping -/

/-- C1: the spec's score-parsing contract. The general rule (a line holding
"score" or "/10" contributes the first whitespace-separated token that,
stripped of `()`, `:` and `/`, parses as an integer in [1,10]; otherwise
the default 7 stands) holds, and so do the no-score and strengths
examples — but the spec's own example `"Score: 8/10" ↦ overall=8` fails:
Python `strip` removes only edge characters, so the token `8/10` never
parses and the default 7 survives, as this theorem evaluates. A bare
token, as in `"Score: 8"`, does parse. -/
theorem parse_evaluation_score_examples :
    parse_evaluation "Score: 8/10" =
      { overall := 7, strengths := [], improvements := [], raw_feedback := "Score: 8/10" } ∧
    parse_evaluation "No rating given" =
      { overall := 7, strengths := [], improvements := [], raw_feedback := "No rating given" } ∧
    parse_evaluation "Strengths: Clear structure" =
      { overall := 7, strengths := ["Clear structure"], improvements := [],
        raw_feedback := "Strengths: Clear structure" } ∧
    parse_evaluation "Score: 8" =
      { overall := 8, strengths := [], improvements := [], raw_feedback := "Score: 8" } := by
  refine ⟨?_, ?_, ?_, ?_⟩ <;> decide

/-- C6: when the LLM call raises, `evaluate_response` returns the default
score 7 with the fallback feedback text and empty feedback lists, for
every session map and session id (the embedding is a total function, so
evaluation never raises to its caller). -/
theorem evaluate_response_llm_failure (sessions : Sessions) (sid q resp e : String) :
    (evaluate_response sessions sid q resp (Except.error e)).1 =
      { overall := 7, strengths := [], improvements := [],
        raw_feedback := "Unable to evaluate response." } := by
  have h : (evaluate_response sessions sid q resp (Except.error e)).1
      = parse_evaluation "Unable to evaluate response." := rfl
  rw [h]
  decide

/-- C10: when the session id is absent from the session map,
`evaluate_response` still returns the parsed score and leaves the session
map (hence every stored `SessionMetrics`) unchanged: the score is silently
not recorded. -/
theorem evaluate_response_unknown_session (sessions : Sessions) (sid q resp : String)
    (llm : Except String (Option String)) (h : sessions_lookup sessions sid = none) :
    evaluate_response sessions sid resp q llm =
      (parse_evaluation (generate_evaluation llm), sessions) := by
  unfold evaluate_response
  rw [h]
  rfl

/-- C10 witness: a two-entry-free map looked up at an unknown id. -/
theorem evaluate_response_unknown_session_witness :
    sessions_lookup [("a", m_demo)] "b" = none ∧
    evaluate_response [("a", m_demo)] "b" "q" "r" (Except.ok (some "ok")) =
      (parse_evaluation (generate_evaluation (Except.ok (some "ok"))), [("a", m_demo)]) :=
  ⟨rfl, evaluate_response_unknown_session [("a", m_demo)] "b" "r" "q" (Except.ok (some "ok")) rfl⟩

/-! ### C2 / C9 — retrieval threshold and the k=0 quirk -/

theorem retrieve_eq_retrieve_spec (r : ContextRetriever) (query : String)
    (category : Option String) (k : Option Nat) :
    retrieve r query category k = retrieve_spec r query category k := by
  simp only [retrieve, retrieve_spec]
  have hf : (r.vectorstore query (py_or_nat k r.default_k * 2) (mk_filter category)).filter
        (fun p => decide (p.2 ≤ 1 - r.score_threshold))
      = (r.vectorstore query (py_or_nat k r.default_k * 2) (mk_filter category)).filter
        (fun p => decide (r.score_threshold ≤ 1 - p.2)) := by
    apply List.filter_congr
    intro x _
    rw [decide_eq_decide]
    constructor <;> intro h <;> linarith
  rw [hf]

/-- C2: `retrieve` requests twice the effective `k` from the vector store,
keeps exactly the candidates whose similarity `1 − d` reaches the
threshold (proved by the refinement onto `retrieve_spec`, whose filter is
the spec's), truncates to the first `k` survivors, and returns however
few survive without error: at the default threshold 0.7 the candidate at
distance 0.35 is dropped, the one at distance 0.2 is kept, and a single
far candidate yields the empty result. -/
theorem retrieve_threshold_contract :
    (∀ (r : ContextRetriever) (query : String) (category : Option String) (k : Option Nat),
      retrieve r query category k = retrieve_spec r query category k) ∧
    (∀ (r : ContextRetriever) (query : String) (category : Option String) (k : Option Nat),
      (retrieve r query category k).length ≤ py_or_nat k r.default_k) ∧
    retrieve r_distance_example "q" none none = [doc_b] ∧
    retrieve r_sparse_example "q" none none = [] := by
  refine ⟨retrieve_eq_retrieve_spec, ?_, ?_, ?_⟩
  · intro r query category k
    unfold retrieve
    exact List.length_take_le _ _
  · have h35 : (decide (((35 : ℚ) / 100) ≤ 1 - 7 / 10)) = false :=
      decide_eq_false (by norm_num)
    have h2 : (decide (((2 : ℚ) / 10) ≤ 1 - 7 / 10)) = true :=
      decide_eq_true (by norm_num)
    simp [retrieve, r_distance_example, py_or_nat, mk_filter, List.filter, h35, h2]
  · have h9 : (decide (((9 : ℚ) / 10) ≤ 1 - 7 / 10)) = false :=
      decide_eq_false (by norm_num)
    simp [retrieve, r_sparse_example, py_or_nat, mk_filter, List.filter, h9]

/-- C9: because the code combines `k` with the default through a falsy `or`,
`retrieve` with `k = 0` behaves exactly like `retrieve` with `k` omitted,
and with the default `k = 4` and eight qualifying candidates it returns 4
documents rather than 0. -/
theorem retrieve_k_zero_falsy :
    (∀ (r : ContextRetriever) (query : String) (category : Option String),
      retrieve r query category (some 0) = retrieve r query category none) ∧
    (retrieve r_k0_example "q" none (some 0)).length = 4 := by
  constructor
  · intro r query category
    rfl
  · have h0 : (decide (((0 : ℚ) : ℚ) ≤ 1 - 7 / 10)) = true :=
      decide_eq_true (by norm_num)
    have h0b : (decide ((7 : ℚ) / 10 ≤ 1)) = true :=
      decide_eq_true (by norm_num)
    simp [retrieve, r_k0_example, py_or_nat, mk_filter, List.filter, h0, h0b]

/-! ### C8 — sample-question extraction -/

theorem sample_q_lines_foldl (lines : List String) (acc : List String) :
    lines.foldl sample_q_line_step acc = acc ++ lines.filterMap extract_question_of_line := by
  induction lines generalizing acc with
  | nil => simp
  | cons line rest ih =>
    rw [List.foldl_cons, List.filterMap_cons, ih]
    simp only [sample_q_line_step, extract_question_of_line]
    split_ifs with h1 h2 <;> simp

theorem sample_q_docs_foldl (docs : List Document) (acc : List String) :
    docs.foldl sample_q_doc_step acc =
      acc ++ (docs.filter
          (fun d => decide (meta_get d.metadata "content_type" = some (MetaValue.s "qa_pair")))).flatMap
        (fun d => extract_questions d.page_content) := by
  induction docs generalizing acc with
  | nil => simp
  | cons doc rest ih =>
    rw [List.foldl_cons, List.filter_cons]
    by_cases h : meta_get doc.metadata "content_type" = some (MetaValue.s "qa_pair")
    · rw [sample_q_doc_step, if_pos h, sample_q_lines_foldl, ih,
        if_pos (by simpa using h), List.flatMap_cons, extract_questions, List.append_assoc]
    · rw [sample_q_doc_step, if_neg h, ih, if_neg (by simpa using h)]

/-- C8: `get_sample_questions` equals the specification pipeline — filter the
retrieved documents to `content_type == "qa_pair"`, extract from each, in
encounter order, the lines beginning with a `Q:` marker (emphasis-prefixed
`**Q:` included), with the markers removed and the text stripped, skip the
lines that do not match or strip to nothing, and truncate to `count` — and
on the concrete example store the qa_pair document's marked line is
returned while the text document's `Q:` line is ignored. -/
theorem get_sample_questions_contract :
    (∀ (r : ContextRetriever) (interview_type : String) (topic : Option String) (count : Nat),
      get_sample_questions r interview_type topic count =
        get_sample_questions_spec r interview_type topic count) ∧
    (∀ (r : ContextRetriever) (interview_type : String) (topic : Option String) (count : Nat),
      (get_sample_questions r interview_type topic count).length ≤ count) ∧
    get_sample_questions r_qa_example "behavioral" none 5 = ["Tell me about X"] := by
  refine ⟨?_, ?_, ?_⟩
  · intro r interview_type topic count
    simp only [get_sample_questions, get_sample_questions_spec]
    rw [sample_q_docs_foldl, List.nil_append]
  · intro r interview_type topic count
    simp only [get_sample_questions]
    exact List.length_take_le _ _
  · have h0 : (decide ((0 : ℚ) ≤ 1 - 7 / 10)) = true :=
      decide_eq_true (by norm_num)
    have h0b : (decide ((7 : ℚ) / 10 ≤ 1)) = true :=
      decide_eq_true (by norm_num)
    have hr : retrieve r_qa_example (py_or_str none ("behavioral" ++ " interview questions"))
        (some "behavioral") (some 5) = [qa_doc, text_doc] := by
      simp [retrieve, r_qa_example, py_or_nat, mk_filter, List.filter, h0, h0b]
    simp only [get_sample_questions]
    rw [hr]
    decide

/-! ### C3 — chunker metadata and trimming -/

theorem find?_map_set (m : Metadata) (k : String) (v : MetaValue) :
    (m.map (fun p => if p.1 == k then (k, v) else p)).find? (fun p => p.1 == k) =
      if m.any (fun p => p.1 == k) then some (k, v) else none := by
  induction m with
  | nil => rfl
  | cons q t ih =>
    cases h : (q.1 == k)
    · rw [List.map_cons, if_neg (by simp [h]), List.find?_cons]
      simp only [h, ih, List.any_cons, Bool.false_or]
    · rw [List.map_cons, if_pos h, List.find?_cons]
      simp only [beq_self_eq_true, List.any_cons, h, Bool.true_or, if_pos rfl, if_true]

theorem find?_map_set_other (m : Metadata) (k k2 : String) (v : MetaValue)
    (hk : (k2 == k) = false) :
    (m.map (fun p => if p.1 == k2 then (k2, v) else p)).find? (fun p => p.1 == k) =
      m.find? (fun p => p.1 == k) := by
  induction m with
  | nil => rfl
  | cons q t ih =>
    cases h : (q.1 == k2)
    · rw [List.map_cons, if_neg (by simp [h]), List.find?_cons, List.find?_cons]
      cases hq : (q.1 == k)
      · simp only [hq, ih]
      · simp only [hq]
    · have hqk : (q.1 == k) = false := by
        rw [eq_of_beq h]
        exact hk
      rw [List.map_cons, if_pos h, List.find?_cons, List.find?_cons]
      simp only [hk, hqk, ih]

theorem meta_get_set_self (m : Metadata) (k : String) (v : MetaValue) :
    meta_get (meta_set m k v) k = some v := by
  unfold meta_get meta_set
  cases h : m.any (fun p => p.1 == k)
  · have hn : m.find? (fun p => p.1 == k) = none :=
      List.find?_eq_none.mpr (List.any_eq_false.mp h)
    rw [if_neg (by simp [h]), List.find?_append, hn]
    simp [List.find?_cons_of_pos _ (beq_self_eq_true k)]
  · rw [if_pos (by simp [h]), find?_map_set, if_pos h]
    rfl

theorem meta_get_set_other (m : Metadata) (k k2 : String) (v : MetaValue) (hk : k ≠ k2) :
    meta_get (meta_set m k2 v) k = meta_get m k := by
  have hbeq : (k2 == k) = false := beq_eq_false_iff_ne.mpr hk.symm
  unfold meta_get meta_set
  cases h : m.any (fun p => p.1 == k2)
  · rw [if_neg (by simp [h]), List.find?_append]
    rw [show List.find? (fun p => p.1 == k) [(k2, v)] = none from
      List.find?_eq_none.mpr (by intro x hx; simp at hx; subst hx; simp [hbeq])]
    rw [Option.or_none]
  · rw [if_pos (by simp [h]), find?_map_set_other _ _ _ _ hbeq]

theorem enhance_metadata_page_content (d : Document) (i t : Nat) :
    (enhance_metadata d i t).page_content = d.page_content := rfl

theorem meta_get_enhance_chunk_index (d : Document) (i t : Nat) :
    meta_get (enhance_metadata d i t).metadata "chunk_index" = some (.i (i : Int)) := by
  show meta_get (meta_set (meta_set (meta_set (meta_set (meta_set (meta_set d.metadata
      "chunk_index" (.i (i : Int))) "total_chunks" (.i (t : Int)))
      "chunk_size" (.i (d.page_content.length : Int)))
      "is_first_chunk" (.b (i == 0))) "is_last_chunk" (.b (i == t - 1)))
      "content_type" _) "chunk_index" = some (.i (i : Int))
  rw [meta_get_set_other _ _ _ _ (by decide), meta_get_set_other _ _ _ _ (by decide),
    meta_get_set_other _ _ _ _ (by decide), meta_get_set_other _ _ _ _ (by decide),
    meta_get_set_other _ _ _ _ (by decide), meta_get_set_self]

theorem meta_get_enhance_total_chunks (d : Document) (i t : Nat) :
    meta_get (enhance_metadata d i t).metadata "total_chunks" = some (.i (t : Int)) := by
  show meta_get (meta_set (meta_set (meta_set (meta_set (meta_set (meta_set d.metadata
      "chunk_index" (.i (i : Int))) "total_chunks" (.i (t : Int)))
      "chunk_size" (.i (d.page_content.length : Int)))
      "is_first_chunk" (.b (i == 0))) "is_last_chunk" (.b (i == t - 1)))
      "content_type" _) "total_chunks" = some (.i (t : Int))
  rw [meta_get_set_other _ _ _ _ (by decide), meta_get_set_other _ _ _ _ (by decide),
    meta_get_set_other _ _ _ _ (by decide), meta_get_set_other _ _ _ _ (by decide),
    meta_get_set_self]

/-- C3 counterexample: a whitespace-padded document shorter than the chunk
size is emitted by `chunk_single_document` with its padding intact — the
emitted chunk is not the trimmed original, refuting the claim's
short-document and every-chunk-trimmed parts as stated. -/
theorem chunk_short_doc_not_trimmed :
    (chunk_single_document chunker512 ⟨" hi ", []⟩).map Document.page_content = [" hi "] ∧
    py_strip_ws " hi " = "hi" ∧ (" hi " : String) ≠ "hi" := by
  refine ⟨?_, by decide, by decide⟩
  decide

/-- C3 (amended): a document whose content length is at most `chunk_size`
yields exactly one chunk whose text equals the original content unchanged
(in particular not whitespace-trimmed), carrying `chunk_index = 0` and
`total_chunks = 1`; chunks from the splitting path (documents longer than
`chunk_size`) are trimmed of leading and trailing whitespace before
emission. -/
theorem chunk_single_document_amended (c : SemanticChunker) (doc : Document) :
    (doc.page_content.length ≤ c.chunk_size →
      (chunk_single_document c doc).map Document.page_content = [doc.page_content] ∧
      ∀ d ∈ chunk_single_document c doc,
        meta_get d.metadata "chunk_index" = some (.i 0) ∧
        meta_get d.metadata "total_chunks" = some (.i 1)) ∧
    (c.chunk_size < doc.page_content.length →
      ∀ d ∈ chunk_single_document c doc, py_strip_ws d.page_content = d.page_content) := by
  constructor
  · intro h
    have hc : chunk_single_document c doc = [enhance_metadata doc 0 1] := by
      unfold chunk_single_document
      rw [if_pos h]
    rw [hc]
    refine ⟨by rw [List.map_singleton, enhance_metadata_page_content], ?_⟩
    intro d hd
    rw [List.mem_singleton] at hd
    subst hd
    exact ⟨meta_get_enhance_chunk_index doc 0 1, meta_get_enhance_total_chunks doc 0 1⟩
  · intro h d hd
    unfold chunk_single_document at hd
    rw [if_neg (by omega)] at hd
    simp only [List.mem_map] at hd
    obtain ⟨p, _, hp⟩ := hd
    rw [← hp, enhance_metadata_page_content]
    exact py_strip_ws_idem p.2

/-- C3 witness: both branches of the amended theorem instantiated — a short
document kept verbatim as one chunk, and a split document whose two chunks
are both already trimmed. -/
theorem chunk_single_document_amended_witness :
    ((⟨"abc", []⟩ : Document).page_content.length ≤ chunker512.chunk_size ∧
      (chunk_single_document chunker512 ⟨"abc", []⟩).map Document.page_content = ["abc"] ∧
      ∀ d ∈ chunk_single_document chunker512 ⟨"abc", []⟩,
        meta_get d.metadata "chunk_index" = some (.i 0) ∧
        meta_get d.metadata "total_chunks" = some (.i 1)) ∧
    (chunker_small.chunk_size < (⟨"abcd", []⟩ : Document).page_content.length ∧
      ∀ d ∈ chunk_single_document chunker_small ⟨"abcd", []⟩,
        py_strip_ws d.page_content = d.page_content) :=
  ⟨⟨by decide, (chunk_single_document_amended chunker512 ⟨"abc", []⟩).1 (by decide)⟩,
   ⟨by decide, (chunk_single_document_amended chunker_small ⟨"abcd", []⟩).2 (by decide)⟩⟩

/-! ### C4 — session summary -/

theorem dedup_first_aux_sublist (l seen : List String) : (dedup_first_aux l seen).Sublist l := by
  induction l generalizing seen with
  | nil => simp [dedup_first_aux]
  | cons x xs ih =>
    rw [dedup_first_aux]
    split
    · exact (ih seen).cons x
    · exact (ih (x :: seen)).cons₂ x

theorem dedup_first_aux_not_mem (l seen : List String) :
    ∀ x ∈ dedup_first_aux l seen, x ∉ seen := by
  induction l generalizing seen with
  | nil => simp [dedup_first_aux]
  | cons y ys ih =>
    rw [dedup_first_aux]
    split
    · exact ih seen
    · intro x hx
      rw [List.mem_cons] at hx
      rcases hx with hx | hx
      · subst hx
        assumption
      · intro hxs
        exact ih (y :: seen) x hx (List.mem_cons_of_mem y hxs)

theorem dedup_first_aux_nodup (l seen : List String) : (dedup_first_aux l seen).Nodup := by
  induction l generalizing seen with
  | nil => simp [dedup_first_aux]
  | cons y ys ih =>
    rw [dedup_first_aux]
    split
    · exact ih seen
    · rw [List.nodup_cons]
      exact ⟨fun hy => dedup_first_aux_not_mem ys (y :: seen) y hy (List.mem_cons_self y seen),
        ih (y :: seen)⟩

theorem dedup_first_aux_erase_dups (l seen : List String) :
    dedup_first_aux l seen = erase_dups_spec (l.filter (fun y => y ∉ seen)) := by
  induction l generalizing seen with
  | nil => simp [dedup_first_aux, erase_dups_spec]
  | cons x xs ih =>
    rw [dedup_first_aux, List.filter_cons]
    by_cases hx : x ∈ seen
    · rw [if_pos hx, if_neg (by simp [hx]), ih seen]
    · rw [if_neg hx, if_pos (by simp [hx]), erase_dups_spec, ih (x :: seen),
        List.filter_filter]
      congr 1
      exact congrArg erase_dups_spec (List.filter_congr (fun y _ => by
        by_cases h1 : y = x <;> by_cases h2 : y ∈ seen <;> simp [h1, h2]))

theorem dedup_first_eq_erase_dups_spec (l : List String) :
    dedup_first l = erase_dups_spec l := by
  rw [dedup_first, dedup_first_aux_erase_dups]
  exact congrArg erase_dups_spec (List.filter_eq_self.mpr (fun a _ => by simp))

/-- C4: `to_summary` reports duration 0 for an unended session, the stored
running average rounded to one decimal, the trend classification of the
claim (`"not_enough_data"` under 3 scores, otherwise the half-versus-half
comparison with the 0.5 bands), and at most 5 deduplicated strengths and
improvements in first-seen order: each list is a duplicate-free sublist of
the concatenated feedback and, exactly, the first 5 entries of the
first-seen-order deduplication `erase_dups_spec` of that concatenation;
the concrete score lists behave as the spec's examples state, including
the seven-sixes session built through `add_score` and a session with
repeated feedback whose strengths come out in first-seen order
`["b", "a", "c"]`. -/
theorem to_summary_contract :
    (∀ m : SessionMetrics, m.ended_at = none → (to_summary m).duration_minutes = 0) ∧
    (∀ m : SessionMetrics, (to_summary m).average_score = py_round1 m.average_score) ∧
    (∀ m : SessionMetrics, m.scores.length < 3 →
      (to_summary m).score_trend = "not_enough_data") ∧
    (∀ m : SessionMetrics, 3 ≤ m.scores.length →
      (to_summary m).score_trend =
        (let first_half := m.scores.take (m.scores.length / 2)
         let second_half := m.scores.drop (m.scores.length / 2)
         let diff := (second_half.map (fun s => (s.overall : ℚ))).sum / (second_half.length : ℚ)
           - (first_half.map (fun s => (s.overall : ℚ))).sum / (first_half.length : ℚ)
         if diff > 1 / 2 then "improving"
         else if diff < -(1 / 2) then "declining"
         else "stable")) ∧
    (∀ m : SessionMetrics,
      (to_summary m).top_strengths.length ≤ 5 ∧
      (to_summary m).top_strengths.Nodup ∧
      (to_summary m).top_strengths.Sublist (m.scores.flatMap ResponseScore.strengths) ∧
      (to_summary m).areas_to_improve.length ≤ 5 ∧
      (to_summary m).areas_to_improve.Nodup ∧
      (to_summary m).areas_to_improve.Sublist (m.scores.flatMap ResponseScore.improvements)) ∧
    (to_summary (session_of [5, 5, 9, 9])).score_trend = "improving" ∧
    (to_summary (session_of [7, 7])).score_trend = "not_enough_data" ∧
    to_summary session_seven =
      { session_id := "s", interview_type := "technical", duration_minutes := 0,
        questions_answered := 7, average_score := 6, score_trend := "stable",
        top_strengths := [], areas_to_improve := [] } ∧
    (∀ m : SessionMetrics,
      (to_summary m).top_strengths =
        (erase_dups_spec (m.scores.flatMap ResponseScore.strengths)).take 5 ∧
      (to_summary m).areas_to_improve =
        (erase_dups_spec (m.scores.flatMap ResponseScore.improvements)).take 5) ∧
    (to_summary session_feedback).top_strengths = ["b", "a", "c"] ∧
    (to_summary session_feedback).areas_to_improve = ["x", "y"] := by
  refine ⟨?_, ?_, ?_, ?_, ?_, ?_, ?_, ?_, ?_, ?_, ?_⟩
  · intro m h
    show duration_minutes m = 0
    rw [duration_minutes, h]
  · intro m
    rfl
  · intro m h
    show score_trend m = _
    rw [score_trend, if_pos h]
  · intro m h
    show score_trend m = _
    rw [score_trend, if_neg (by omega)]
  · intro m
    refine ⟨List.length_take_le _ _,
      List.Nodup.sublist (List.take_sublist _ _) (dedup_first_aux_nodup _ _),
      (List.take_sublist _ _).trans (dedup_first_aux_sublist _ _),
      List.length_take_le _ _,
      List.Nodup.sublist (List.take_sublist _ _) (dedup_first_aux_nodup _ _),
      (List.take_sublist _ _).trans (dedup_first_aux_sublist _ _)⟩
  · show score_trend (session_of [5, 5, 9, 9]) = "improving"
    norm_num [score_trend, session_of, mk_score]
  · rfl
  · show to_summary session_seven = _
    norm_num [to_summary, session_seven, session_start, mk_score, List.replicate, add_score,
      duration_minutes, py_round1, round_half_even, score_trend, aggregate_feedback,
      dedup_first, dedup_first_aux]
  · intro m
    constructor
    · show (dedup_first (m.scores.flatMap ResponseScore.strengths)).take 5 = _
      rw [dedup_first_eq_erase_dups_spec]
    · show (dedup_first (m.scores.flatMap ResponseScore.improvements)).take 5 = _
      rw [dedup_first_eq_erase_dups_spec]
  · decide
  · decide

/-- C4 witness: the contract instantiated at concrete sessions, discharging
the unended-session, fewer-than-3-scores and at-least-3-scores
hypotheses. -/
theorem to_summary_contract_witness :
    (session_of [7, 7]).ended_at = none ∧
    (to_summary (session_of [7, 7])).duration_minutes = 0 ∧
    (session_of [7, 7]).scores.length < 3 ∧
    (to_summary (session_of [7, 7])).score_trend = "not_enough_data" ∧
    3 ≤ (session_of [5, 5, 9, 9]).scores.length ∧
    (to_summary (session_of [5, 5, 9, 9])).score_trend =
      (let first_half := (session_of [5, 5, 9, 9]).scores.take
        ((session_of [5, 5, 9, 9]).scores.length / 2)
       let second_half := (session_of [5, 5, 9, 9]).scores.drop
        ((session_of [5, 5, 9, 9]).scores.length / 2)
       let diff := (second_half.map (fun s => (s.overall : ℚ))).sum / (second_half.length : ℚ)
         - (first_half.map (fun s => (s.overall : ℚ))).sum / (first_half.length : ℚ)
       if diff > 1 / 2 then "improving"
       else if diff < -(1 / 2) then "declining"
       else "stable") :=
  ⟨rfl,
   to_summary_contract.1 (session_of [7, 7]) rfl,
   by decide,
   to_summary_contract.2.2.1 (session_of [7, 7]) (by decide),
   by decide,
   to_summary_contract.2.2.2.1 (session_of [5, 5, 9, 9]) (by decide)⟩

/-! ### C7 / C5 — loader category extraction and failure behaviour -/

theorem extract_category_under_base (base : PyPath) (a : String) (rest : List String) :
    extract_category ⟨base⟩ ⟨base.absolute, base.parts ++ a :: rest⟩ =
      if rest = [] then "general" else a := by
  unfold extract_category relative_to
  rw [if_pos (by simp [List.isPrefixOf_iff_prefix, List.prefix_append])]
  rw [List.drop_left]
  cases rest with
  | nil => simp
  | cons b t => simp

/-- C7: for a file resolved under the configured base directory, the category
is the first path segment below the base, and `"general"` when the file
sits directly under the base; in particular `<base>/technical/arrays.md`
yields `"technical"` and `<base>/notes.md` yields `"general"`. -/
theorem extract_category_contract (base : PyPath) (a : String) (rest : List String) :
    extract_category ⟨base⟩ (resolve_path base ⟨false, a :: rest⟩) =
      (if rest = [] then "general" else a) ∧
    extract_category ⟨base⟩ (resolve_path base ⟨false, ["technical", "arrays.md"]⟩) =
      "technical" ∧
    extract_category ⟨base⟩ (resolve_path base ⟨false, ["notes.md"]⟩) = "general" := by
  refine ⟨?_, ?_, ?_⟩
  · show extract_category ⟨base⟩ ⟨base.absolute, base.parts ++ a :: rest⟩ = _
    exact extract_category_under_base base a rest
  · show extract_category ⟨base⟩ ⟨base.absolute, base.parts ++ "technical" :: ["arrays.md"]⟩ = _
    rw [extract_category_under_base base "technical" ["arrays.md"]]
    rfl
  · show extract_category ⟨base⟩ ⟨base.absolute, base.parts ++ "notes.md" :: []⟩ = _
    rw [extract_category_under_base base "notes.md" []]
    rfl

/-- C5: `load_file` is a total function into document lists (it cannot raise
past its boundary in this embedding), and each failure mode yields the
empty list: the resolved path does not exist; its lowercased suffix is not
a supported extension; the pdf read raises; or the text read raises for a
markdown/plain-text suffix. -/
theorem load_file_failure_contract (fs : FS) (loader : DocumentLoader) (p : PyPath) :
    (fs.exists_file (resolve_path loader.base_path p) = false → load_file fs loader p = []) ∧
    (str_lower (path_suffix (resolve_path loader.base_path p)) ∉ supported_extensions →
      load_file fs loader p = []) ∧
    (∀ e, str_lower (path_suffix (resolve_path loader.base_path p)) = ".pdf" →
      fs.read_pdf (resolve_path loader.base_path p) = .error e → load_file fs loader p = []) ∧
    (∀ e, (str_lower (path_suffix (resolve_path loader.base_path p)) = ".md" ∨
        str_lower (path_suffix (resolve_path loader.base_path p)) = ".txt") →
      fs.read_text (resolve_path loader.base_path p) = .error e →
      load_file fs loader p = []) := by
  refine ⟨?_, ?_, ?_, ?_⟩
  · intro h
    simp [load_file, h]
  · intro h
    have hc : supported_extensions.contains
        (str_lower (path_suffix (resolve_path loader.base_path p))) = false := by
      cases he : supported_extensions.contains
          (str_lower (path_suffix (resolve_path loader.base_path p)))
      · rfl
      · exact absurd (List.elem_iff.mp he) h
    by_cases hex : fs.exists_file (resolve_path loader.base_path p)
    · simp [load_file, hex, hc]
      exact fun hmem => absurd hmem h
    · simp [load_file, hex]
  · intro e hext herr
    by_cases hex : fs.exists_file (resolve_path loader.base_path p)
    · simp [load_file, hex, hext, load_pdf, herr, Except.map]
    · simp [load_file, hex]
  · intro e hext herr
    by_cases hex : fs.exists_file (resolve_path loader.base_path p)
    · rcases hext with hext | hext <;>
        simp [load_file, hex, hext, load_text, herr, Except.map]
    · simp [load_file, hex]

/-- C5 witness: each failure mode instantiated on a concrete filesystem —
missing file, unsupported `.xyz` suffix, raising pdf read, raising text
read — and each yields the empty list. -/
theorem load_file_failure_contract_witness :
    (fs_missing.exists_file (resolve_path loader_kb.base_path ⟨false, ["notes.md"]⟩) = false ∧
      load_file fs_missing loader_kb ⟨false, ["notes.md"]⟩ = []) ∧
    (str_lower (path_suffix (resolve_path loader_kb.base_path ⟨false, ["notes.xyz"]⟩)) ∉
        supported_extensions ∧
      load_file fs_bad_reads loader_kb ⟨false, ["notes.xyz"]⟩ = []) ∧
    (str_lower (path_suffix (resolve_path loader_kb.base_path ⟨false, ["doc.pdf"]⟩)) = ".pdf" ∧
      fs_bad_reads.read_pdf (resolve_path loader_kb.base_path ⟨false, ["doc.pdf"]⟩) =
        .error "parse" ∧
      load_file fs_bad_reads loader_kb ⟨false, ["doc.pdf"]⟩ = []) ∧
    (str_lower (path_suffix (resolve_path loader_kb.base_path ⟨false, ["notes.md"]⟩)) = ".md" ∧
      fs_bad_reads.read_text (resolve_path loader_kb.base_path ⟨false, ["notes.md"]⟩) =
        .error "decode" ∧
      load_file fs_bad_reads loader_kb ⟨false, ["notes.md"]⟩ = []) :=
  ⟨⟨rfl, (load_file_failure_contract fs_missing loader_kb ⟨false, ["notes.md"]⟩).1 rfl⟩,
   ⟨by decide,
    (load_file_failure_contract fs_bad_reads loader_kb ⟨false, ["notes.xyz"]⟩).2.1 (by decide)⟩,
   ⟨by decide, rfl,
    (load_file_failure_contract fs_bad_reads loader_kb ⟨false, ["doc.pdf"]⟩).2.2.1 "parse"
      (by decide) rfl⟩,
   ⟨by decide, rfl,
    (load_file_failure_contract fs_bad_reads loader_kb ⟨false, ["notes.md"]⟩).2.2.2 "decode"
      (Or.inl (by decide)) rfl⟩⟩
